import Mathlib

set_option maxHeartbeats 1000000
set_option maxRecDepth 4000

namespace RCT

/-! Shallow embedding of the deterministic simulation tick engine of
src/src/openrct2/GameState.cpp: the frame driver `GameState::Tick`, the
pipeline `GameState::UpdateLogic`, `GameState::CreateStateSnapshot` and
`GameState::InitAll`.  Machine integers are `Nat` with an explicit
`% 2^32` where 32-bit overflow matters (`gCurrentTicks` and the
server-tick subtraction).  External collaborator calls (network, action
queue, subsystem updates) are recorded as events in a trace, in program
order, so that counts and orderings of the calls are provable. -/

/-- Modelled from the spec: network role of this instance, one of
None, Server, Client (network.h is not under src/). -/
inductive NetworkMode
  | noneM
  | client
  | server
deriving DecidableEq, Repr

/-- Modelled from the spec: connection status of the network layer
(network.h is not under src/). -/
inductive NetworkStatus
  | noneS
  | ready
  | connecting
  | connected
deriving DecidableEq, Repr

/-- Modelled from the spec: authentication status of the network layer
(network.h is not under src/). -/
inductive NetworkAuth
  | noneA
  | requested
  | ok
  | badName
  | badVersion
  | badPassword
  | verificationFailure
  | full
  | requirePassword
  | verified
deriving DecidableEq, Repr

/-- Modelled from the spec: user input state (Input.h is not under src/).
Reset and Normal are the idle states; every other state is interactive. -/
inductive InputState
  | reset
  | normal
  | widgetPressed
  | positioningWindow
  | viewportRight
  | dragObject
  | viewportLeft
  | scrollLeft
  | resizing
  | scrollRight
deriving DecidableEq, Repr

/-- Observable collaborator calls of the frame driver and of the update
pipeline, recorded in program order. -/
inductive Ev
  | logicCall
  | replayUpdate
  | netUpdate
  | snapCreate
  | snapCapture
  | snapLink (tick : Nat) (seed : Nat)
  | sendTick
  | checkDesync
  | requestSnapshot
  | dateUpd
  | scenarioUpd
  | climateUpd
  | mapTilesUpd
  | removeProv
  | pathWide
  | peepUpd
  | restoreProv
  | vehicleUpd
  | miscUpd
  | rideUpd
  | parkUpd
  | researchUpd
  | rideRatingsUpd
  | rideMeasureUpd
  | newsUpd
  | mapAnimInvalidate
  | soundsUpd
  | procQueue
  | procPending
  | netFlush
  | tickInc
  | hookTick
  | hookDay
  | autosaveCheck
deriving DecidableEq, Repr

/-- Modelled from the spec: the Logical Date is a derived value recomputed
from months-elapsed plus month-ticks each logical update
(localisation/Date.cpp is not under src/). -/
structure Date where
  monthsElapsed : Nat
  monthTicks : Nat
deriving DecidableEq, Repr

/-- Modelled from the spec: length in days of each of the eight calendar
months (localisation/Date.cpp is not under src/). -/
def daysInMonth : Nat → Nat
  | 0 => 31
  | 1 => 30
  | 2 => 31
  | 3 => 30
  | 4 => 31
  | 5 => 31
  | 6 => 30
  | _ => 31

/-- Modelled from the spec: the day value of the Logical Date, derived
from the month-tick counter scaled by the month length
(localisation/Date.cpp is not under src/). -/
def Date.GetDay (d : Date) : Nat :=
  d.monthTicks * daysInMonth (d.monthsElapsed % 8) / 65536

/-- Modulus of an unsigned 32-bit counter. -/
def U32MOD : Nat := 4294967296

/-- Unsigned 32-bit subtraction with wraparound, as in the C expression
network_get_server_tick() - gCurrentTicks on uint32_t operands. -/
def u32sub (a b : Nat) : Nat :=
  (a % U32MOD + (U32MOD - b % U32MOD)) % U32MOD

/-- Modelled from the spec: month-tick half of DateUpdate, which advances
the month-tick counter and wraps it at the month boundary
(localisation/Date.cpp is not under src/). -/
def dateUpdTicks (mt : Nat) : Nat :=
  if mt + 4 ≥ 65536 then 0 else mt + 4

/-- Modelled from the spec: months-elapsed half of DateUpdate, which
advances the month counter when the month-tick counter wraps
(localisation/Date.cpp is not under src/). -/
def dateUpdMonths (me mt : Nat) : Nat :=
  if mt + 4 ≥ 65536 then me + 1 else me

/-- Process-wide state read and written by GameState.cpp.  Fields that the
file only reads (network role, configuration, input) are environment
fields held constant by the operations; fields the file writes mirror the
globals it assigns. -/
structure GState where
  currentTicks : Nat
  screenAge : Nat
  savedAge : Nat
  paused : Bool
  singleStep : Bool
  gameSpeed : Nat
  dateMonthsElapsed : Nat
  dateMonthTicks : Nat
  date : Date
  snapshots : List (Nat × Nat)
  randSeed : Nat
  viewportScrolling : Bool
  inputState : InputState
  networkMode : NetworkMode
  networkStatus : NetworkStatus
  networkAuth : NetworkAuth
  serverTick : Nat
  numPlayers : Nat
  pauseServerIfNoClients : Bool
  headless : Bool
  snapshotsEnabled : Bool
  desynced : Bool
  screenFlagsTitleDemo : Bool
  screenFlagsEditor : Bool
  screenFlagsTrackDesigner : Bool
  screenFlagsTrackManager : Bool
deriving DecidableEq, Repr

/-- Date value after the Date-update step of one tick (GameState.cpp
lines 316 to 317: DateUpdate then reconstruction of the date member from
the elapsed counters). -/
def dateAfter (s : GState) : Date :=
  ⟨dateUpdMonths s.dateMonthsElapsed s.dateMonthTicks, dateUpdTicks s.dateMonthTicks⟩

/-- State change of the pipeline body shared by every completed tick
(GameState.cpp lines 316 to 382): recompute the Logical Date, then at the
end increment gCurrentTicks (a uint32, hence mod 2^32) and gSavedAge. -/
def mainState (s : GState) : GState :=
  { s with
    dateMonthsElapsed := (dateAfter s).monthsElapsed
    dateMonthTicks := (dateAfter s).monthTicks
    date := dateAfter s
    currentTicks := (s.currentTicks + 1) % U32MOD
    savedAge := s.savedAge + 1 }

/-- Subsystem calls of the pipeline body before the tick increment, in
the fixed order of GameState.cpp lines 316 to 379; the park update is
skipped in editor mode (line 342). -/
def mainTracePre (s : GState) : List Ev :=
  [Ev.dateUpd, Ev.scenarioUpd, Ev.climateUpd, Ev.mapTilesUpd, Ev.removeProv,
   Ev.pathWide, Ev.peepUpd, Ev.restoreProv, Ev.vehicleUpd, Ev.miscUpd, Ev.rideUpd]
  ++ (if s.screenFlagsEditor = true then [] else [Ev.parkUpd])
  ++ [Ev.researchUpd, Ev.rideRatingsUpd, Ev.rideMeasureUpd, Ev.newsUpd,
      Ev.mapAnimInvalidate, Ev.soundsUpd, Ev.procQueue, Ev.procPending, Ev.netFlush]

/-- Full call trace of the pipeline body: subsystem calls, the tick
increment, then the scripting hook notifications; the day hook fires only
when the day value changed across the Date-update step (GameState.cpp
lines 310 to 393). -/
def mainTrace (s : GState) : List Ev :=
  mainTracePre s ++ [Ev.tickInc] ++ [Ev.hookTick]
  ++ (if s.date.GetDay = (dateAfter s).GetDay then [] else [Ev.hookDay])

/-- Snapshot store effect of GameState::CreateStateSnapshot (lines 401 to
410): the new snapshot is linked to the current tick and the current
deterministic-random seed. -/
def snapAppend (s : GState) : GState :=
  { s with snapshots := s.snapshots ++ [(s.currentTicks, s.randSeed)] }

/-- Call trace of GameState::CreateStateSnapshot (lines 401 to 410). -/
def snapTrace (s : GState) : List Ev :=
  [Ev.snapCreate, Ev.snapCapture, Ev.snapLink s.currentTicks s.randSeed]

/-- Screen-age bump at the top of UpdateLogic (lines 267 to 269); the
guard against wrapping to zero never fires on Nat. -/
def bumpAge (s : GState) : GState :=
  let sa := s.screenAge + 1
  { s with screenAge := if sa = 0 then sa - 1 else sa }

/-- Events at the top of UpdateLogic before the role branch (lines 267 to
274): replay manager update and network update. -/
def logicPre : List Ev := [Ev.logicCall, Ev.replayUpdate, Ev.netUpdate]

/-- GameState::UpdateLogic (lines 254 to 399).  On the server role a
snapshot is taken when enabled and the tick is announced; on the client
role the call returns early when the announced server tick equals the
local tick, and otherwise checks desynchronisation, capturing a
diagnostic snapshot when desynced with snapshots enabled and the
connection live; then the pipeline body runs.  The optional timings
parameter of the source is diagnostics only and is not modelled. -/
def UpdateLogic (s : GState) : GState × List Ev :=
  let s1 := bumpAge s
  if s.networkMode = NetworkMode.server then
    let s2 := if s.snapshotsEnabled = true then snapAppend s1 else s1
    let tr2 := if s.snapshotsEnabled = true then snapTrace s1 else []
    (mainState s2, logicPre ++ tr2 ++ [Ev.sendTick] ++ mainTrace s2)
  else if s.networkMode = NetworkMode.client then
    if s.serverTick = s.currentTicks then
      (s1, logicPre)
    else
      let s2 := if s.desynced = true ∧ s.snapshotsEnabled = true
                   ∧ s.networkStatus = NetworkStatus.connected
                then snapAppend s1 else s1
      let tr2 := [Ev.checkDesync]
        ++ (if s.desynced = true ∧ s.snapshotsEnabled = true
               ∧ s.networkStatus = NetworkStatus.connected
            then snapTrace s1 ++ [Ev.requestSnapshot] else [])
      (mainState s2, logicPre ++ tr2 ++ mainTrace s2)
  else
    (mainState s1, logicPre ++ mainTrace s1)

/-- Iterated pipeline calls, for statements about a run of successive
logical updates. -/
def iterLogic : Nat → GState → GState
  | 0, s => s
  | n + 1, s => iterLogic n (UpdateLogic s).1

/-- Update count decided by the frame driver (GameState.cpp lines 128 to
141): a connected authenticated client clamps the wrapped 32-bit
difference between the server tick and the local tick to at most 10;
otherwise a speed level above 1 doubles the rate per level. -/
def numUpdatesOf (s : GState) : Nat :=
  if s.networkMode = NetworkMode.client ∧ s.networkStatus = NetworkStatus.connected
     ∧ s.networkAuth = NetworkAuth.ok then
    min (max (u32sub s.serverTick s.currentTicks) 0) 10
  else if 1 < s.gameSpeed then 2 ^ (s.gameSpeed - 1) else 1

/-- Effective pause decision of the frame driver (lines 143 to 151),
including the server-enforced pause when headless with no other
participant.  The explicit pause flag itself is modelled from the spec as
a Bool (gGamePaused lives in Game.cpp, not under src/). -/
def effectivePaused (s : GState) : Bool :=
  if s.networkMode = NetworkMode.server ∧ s.pauseServerIfNoClients = true then
    (if s.headless = true ∧ s.numPlayers = 1 then true else s.paused)
  else s.paused

/-- State entering the update loop: a pending single step while not
networked toggles the pause flag before the single update (lines 153 to
161); PauseToggle is modelled from the spec as flipping the is-paused
flag (Game.cpp is not under src/). -/
def preLoopState (s : GState) : GState :=
  if effectivePaused s = true then
    if s.singleStep = true ∧ s.networkMode = NetworkMode.noneM then
      { s with paused := !s.paused }
    else s
  else s

/-- Number of loop iterations the frame driver runs (lines 153 to 167):
1 for a single step, 0 when paused otherwise, else the decided count. -/
def loopCount (s : GState) : Nat :=
  if effectivePaused s = true then
    if s.singleStep = true ∧ s.networkMode = NetworkMode.noneM then 1 else 0
  else numUpdatesOf s

/-- Whether the single-step branch ran this frame (didRunSingleFrame,
lines 153 to 161). -/
def didRunSingle (s : GState) : Bool :=
  if effectivePaused s = true then
    (if s.singleStep = true ∧ s.networkMode = NetworkMode.noneM then true else false)
  else false

/-- Calls the frame driver still makes while paused with zero updates
(lines 162 to 183): tick announcement on a server, map animation
invalidation, pending inbound network messages, action queue drain. -/
def pauseTrace (s : GState) : List Ev :=
  if effectivePaused s = true then
    if s.singleStep = true ∧ s.networkMode = NetworkMode.noneM then []
    else
      (if s.networkMode = NetworkMode.server then [Ev.sendTick] else [])
      ++ [Ev.mapAnimInvalidate, Ev.procPending, Ev.procQueue]
  else []

/-- Autosave eligibility check after the loop (lines 236 to 241), skipped
in the title demo and track design substates. -/
def autosaveTrace (s : GState) : List Ev :=
  if s.screenFlagsTitleDemo = false ∧ s.screenFlagsTrackDesigner = false
     ∧ s.screenFlagsTrackManager = false
  then [Ev.autosaveCheck] else []

/-- Update loop of the frame driver (lines 187 to 205).  After each
UpdateLogic call, only at game speed 1: an interactive input state breaks
out of the batch, and an idle input state with the viewport-scrolling
flag set clears that flag and breaks. -/
def tickLoop : Nat → GState → GState × List Ev
  | 0, s => (s, [])
  | n + 1, s =>
    let s1 := (UpdateLogic s).1
    let tr1 := (UpdateLogic s).2
    if s1.gameSpeed = 1 then
      if s1.inputState = InputState.reset ∨ s1.inputState = InputState.normal then
        if s1.viewportScrolling = true then
          ({ s1 with viewportScrolling := false }, tr1)
        else
          (( tickLoop n s1).1, tr1 ++ (tickLoop n s1).2)
      else (s1, tr1)
    else
      ((tickLoop n s1).1, tr1 ++ (tickLoop n s1).2)

/-- State at the end of GameState::Tick: the loop result, then the
viewport-scrolling flag cleared when not headless (line 211), then the
pause flag toggled back when a single step ran, the game is unpaused and
the title demo flag is clear (lines 245 to 248), then the single-step
request cleared (line 250). -/
def tickFinal (s : GState) : GState :=
  let s2 := (tickLoop (loopCount s) (preLoopState s)).1
  let s3 := if s.headless = true then s2 else { s2 with viewportScrolling := false }
  let s4 := if didRunSingle s = true ∧ s3.paused = false ∧ s.screenFlagsTitleDemo = false
            then { s3 with paused := !s3.paused } else s3
  { s4 with singleStep := false }

/-- GameState::Tick (lines 104 to 252), the frame driver: one network
update, the pause-branch calls, the update loop, the network flush, and
the autosave check, with the state transformed by `tickFinal`. -/
def Tick (s : GState) : GState × List Ev :=
  (tickFinal s,
   [Ev.netUpdate] ++ pauseTrace s ++ (tickLoop (loopCount s) (preLoopState s)).2
     ++ [Ev.netFlush] ++ autosaveTrace s)

/-- GameState::InitAll (lines 59 to 96) restricted to the modelled state:
gCurrentTicks is reset to 0 and the date counters are reset; the map,
park, finance and entity initialisation acts on collaborator state that
is outside this embedding. -/
def InitAll (s : GState) (_mapSize : Nat × Nat) : GState :=
  { s with currentTicks := 0, dateMonthsElapsed := 0, dateMonthTicks := 0 }

/-- Classifier for pipeline invocations in a trace. -/
def isLogicCall : Ev → Bool
  | Ev.logicCall => true
  | _ => false

/-- Classifier for snapshot store calls in a trace. -/
def isSnapEvent : Ev → Bool
  | Ev.snapCreate => true
  | Ev.snapCapture => true
  | Ev.snapLink _ _ => true
  | _ => false

/-- Classifier for the tick-counter increment in a trace. -/
def isTickInc : Ev → Bool
  | Ev.tickInc => true
  | _ => false

/-- Classifier for the tick-elapsed hook notification in a trace. -/
def isHookTick : Ev → Bool
  | Ev.hookTick => true
  | _ => false

/-- Classifier for the day-elapsed hook notification in a trace. -/
def isHookDay : Ev → Bool
  | Ev.hookDay => true
  | _ => false

/-- Number of events in a trace satisfying a classifier. -/
def countIf (p : Ev → Bool) : List Ev → Nat
  | [] => 0
  | e :: tr => (if p e = true then 1 else 0) + countIf p tr

/-- Baseline concrete state used by the concrete instances: a fresh
non-networked interactive session at speed 1. -/
def baseState : GState :=
  { currentTicks := 0, screenAge := 0, savedAge := 0, paused := false,
    singleStep := false, gameSpeed := 1, dateMonthsElapsed := 0,
    dateMonthTicks := 0, date := ⟨0, 0⟩, snapshots := [], randSeed := 123,
    viewportScrolling := false, inputState := InputState.normal,
    networkMode := NetworkMode.noneM, networkStatus := NetworkStatus.noneS,
    networkAuth := NetworkAuth.noneA, serverTick := 0, numPlayers := 1,
    pauseServerIfNoClients := false, headless := false,
    snapshotsEnabled := false, desynced := false,
    screenFlagsTitleDemo := false, screenFlagsEditor := false,
    screenFlagsTrackDesigner := false, screenFlagsTrackManager := false }

/-- Idle-input condition under which the update loop never breaks early:
at game speed 1 the input state is idle and the viewport-scrolling flag is
clear. -/
def NoEarlyExit (s : GState) : Prop :=
  s.gameSpeed = 1 →
    ((s.inputState = InputState.reset ∨ s.inputState = InputState.normal)
      ∧ s.viewportScrolling = false)

/-- Connected authenticated client at tick 50 with the server at tick 55,
while the user input is in an interactive state. -/
def c1cex : GState :=
  { baseState with
    networkMode := NetworkMode.client
    networkStatus := NetworkStatus.connected
    networkAuth := NetworkAuth.ok
    currentTicks := 50
    serverTick := 55
    inputState := InputState.dragObject }

/-- Connected authenticated client at tick 50 with the server at tick 57,
with idle input. -/
def c1wit : GState :=
  { baseState with
    networkMode := NetworkMode.client
    networkStatus := NetworkStatus.connected
    networkAuth := NetworkAuth.ok
    currentTicks := 50
    serverTick := 57 }

/-- Connected authenticated client at tick 50 with the server at tick 57,
while the user input is in an interactive state. -/
def c2cex : GState :=
  { baseState with
    networkMode := NetworkMode.client
    networkStatus := NetworkStatus.connected
    networkAuth := NetworkAuth.ok
    currentTicks := 50
    serverTick := 57
    inputState := InputState.widgetPressed }

/-- Non-networked session at speed level 3. -/
def c2wit : GState := { baseState with gameSpeed := 3 }

/-- Non-networked session at speed level 4. -/
def c3wit : GState := { baseState with gameSpeed := 4 }

/-- Paused non-networked session with a pending single-step request while
the title demo screen flag is set. -/
def c4cex : GState :=
  { baseState with
    paused := true
    singleStep := true
    screenFlagsTitleDemo := true }

/-- Paused non-networked session with a pending single-step request. -/
def c4wit : GState :=
  { baseState with
    paused := true
    singleStep := true }

/-- Paused non-networked session without a pending single-step request. -/
def c5wit : GState := { baseState with paused := true }

/-- Client whose local tick 7 is ahead of the announced server tick 5. -/
def c6cex : GState :=
  { baseState with
    networkMode := NetworkMode.client
    currentTicks := 7
    serverTick := 5 }

/-- Client whose local tick equals the announced server tick. -/
def c6wit : GState :=
  { baseState with
    networkMode := NetworkMode.client
    currentTicks := 50
    serverTick := 50 }

/-- Non-networked session one tick before a day boundary of the date
counters. -/
def c7wit : GState :=
  { baseState with
    dateMonthTicks := 2114
    date := ⟨0, 2114⟩ }

/-- Server with snapshotting enabled at tick 100. -/
def c8wit : GState :=
  { baseState with
    networkMode := NetworkMode.server
    snapshotsEnabled := true
    currentTicks := 100
    randSeed := 77 }

/-- Non-networked session at tick 100. -/
def c9wit : GState := { baseState with currentTicks := 100 }

/-- Connected authenticated client at the 32-bit tick maximum with the
server announcing tick 0. -/
def c10cex : GState :=
  { baseState with
    networkMode := NetworkMode.client
    networkStatus := NetworkStatus.connected
    networkAuth := NetworkAuth.ok
    currentTicks := 4294967295
    serverTick := 0 }

/-- Connected authenticated client at tick 100 with the server announcing
the older tick 40. -/
def c10wit : GState :=
  { baseState with
    networkMode := NetworkMode.client
    networkStatus := NetworkStatus.connected
    networkAuth := NetworkAuth.ok
    currentTicks := 100
    serverTick := 40 }

/-! Helper lemmas shared by the claims. -/

theorem countIf_append (p : Ev → Bool) (a b : List Ev) :
    countIf p (a ++ b) = countIf p a + countIf p b := by
  induction a with
  | nil => simp [countIf]
  | cons e tr ih => simp [countIf, ih, Nat.add_assoc]

theorem countIf_logic_mainTrace (s : GState) :
    countIf isLogicCall (mainTrace s) = 0 := by
  unfold mainTrace mainTracePre
  split <;> split <;> rfl

theorem countIf_snap_mainTrace (s : GState) :
    countIf isSnapEvent (mainTrace s) = 0 := by
  unfold mainTrace mainTracePre
  split <;> split <;> rfl

theorem countIf_inc_mainTrace (s : GState) :
    countIf isTickInc (mainTrace s) = 1 := by
  unfold mainTrace mainTracePre
  split <;> split <;> rfl

theorem countIf_hookTick_mainTrace (s : GState) :
    countIf isHookTick (mainTrace s) = 1 := by
  unfold mainTrace mainTracePre
  split <;> split <;> rfl

theorem countIf_hookDay_mainTrace (s : GState) :
    countIf isHookDay (mainTrace s)
      = (if s.date.GetDay = (dateAfter s).GetDay then 0 else 1) := by
  unfold mainTrace mainTracePre
  split <;> split <;> rfl

theorem countIf_logic_updateLogic (s : GState) :
    countIf isLogicCall (UpdateLogic s).2 = 1 := by
  unfold UpdateLogic
  split
  · split <;> simp only [countIf_append, countIf_logic_mainTrace] <;> rfl
  · split
    · split
      · rfl
      · split <;> simp only [countIf_append, countIf_logic_mainTrace] <;> rfl
    · simp only [countIf_append, countIf_logic_mainTrace]; rfl

theorem updateLogic_env (s : GState) :
    (UpdateLogic s).1.networkMode = s.networkMode ∧
    (UpdateLogic s).1.networkStatus = s.networkStatus ∧
    (UpdateLogic s).1.networkAuth = s.networkAuth ∧
    (UpdateLogic s).1.serverTick = s.serverTick ∧
    (UpdateLogic s).1.gameSpeed = s.gameSpeed ∧
    (UpdateLogic s).1.inputState = s.inputState ∧
    (UpdateLogic s).1.viewportScrolling = s.viewportScrolling ∧
    (UpdateLogic s).1.paused = s.paused ∧
    (UpdateLogic s).1.singleStep = s.singleStep ∧
    (UpdateLogic s).1.randSeed = s.randSeed ∧
    (UpdateLogic s).1.snapshotsEnabled = s.snapshotsEnabled ∧
    (UpdateLogic s).1.desynced = s.desynced ∧
    (UpdateLogic s).1.screenFlagsEditor = s.screenFlagsEditor ∧
    (UpdateLogic s).1.screenFlagsTitleDemo = s.screenFlagsTitleDemo ∧
    (UpdateLogic s).1.headless = s.headless := by
  unfold UpdateLogic
  split
  · split <;>
      exact ⟨rfl, rfl, rfl, rfl, rfl, rfl, rfl, rfl, rfl, rfl, rfl, rfl, rfl, rfl, rfl⟩
  · split
    · split
      · exact ⟨rfl, rfl, rfl, rfl, rfl, rfl, rfl, rfl, rfl, rfl, rfl, rfl, rfl, rfl, rfl⟩
      · split <;>
          exact ⟨rfl, rfl, rfl, rfl, rfl, rfl, rfl, rfl, rfl, rfl, rfl, rfl, rfl, rfl, rfl⟩
    · exact ⟨rfl, rfl, rfl, rfl, rfl, rfl, rfl, rfl, rfl, rfl, rfl, rfl, rfl, rfl, rfl⟩

theorem updateLogic_ticks (s : GState)
    (h : ¬(s.networkMode = NetworkMode.client ∧ s.serverTick = s.currentTicks)) :
    (UpdateLogic s).1.currentTicks = (s.currentTicks + 1) % U32MOD := by
  unfold UpdateLogic
  split
  · split <;> rfl
  · split
    · split
      · rename_i hm heq
        exact absurd ⟨hm, heq⟩ h
      · split <;> rfl
    · rfl

theorem updateLogic_early (s : GState)
    (hm : s.networkMode = NetworkMode.client)
    (heq : s.serverTick = s.currentTicks) :
    (UpdateLogic s).1 = bumpAge s ∧ (UpdateLogic s).2 = logicPre := by
  unfold UpdateLogic
  have hns : ¬ s.networkMode = NetworkMode.server := by rw [hm]; intro hc; cases hc
  rw [if_neg hns, if_pos hm, if_pos heq]
  exact ⟨rfl, rfl⟩

theorem updateLogic_networkMode (s : GState) :
    (UpdateLogic s).1.networkMode = s.networkMode := (updateLogic_env s).1

theorem updateLogic_networkStatus (s : GState) :
    (UpdateLogic s).1.networkStatus = s.networkStatus := (updateLogic_env s).2.1

theorem updateLogic_networkAuth (s : GState) :
    (UpdateLogic s).1.networkAuth = s.networkAuth := (updateLogic_env s).2.2.1

theorem updateLogic_serverTick (s : GState) :
    (UpdateLogic s).1.serverTick = s.serverTick := (updateLogic_env s).2.2.2.1

theorem updateLogic_gameSpeed (s : GState) :
    (UpdateLogic s).1.gameSpeed = s.gameSpeed := (updateLogic_env s).2.2.2.2.1

theorem updateLogic_inputState (s : GState) :
    (UpdateLogic s).1.inputState = s.inputState := (updateLogic_env s).2.2.2.2.2.1

theorem updateLogic_viewportScrolling (s : GState) :
    (UpdateLogic s).1.viewportScrolling = s.viewportScrolling :=
  (updateLogic_env s).2.2.2.2.2.2.1

theorem updateLogic_paused (s : GState) :
    (UpdateLogic s).1.paused = s.paused := (updateLogic_env s).2.2.2.2.2.2.2.1

theorem updateLogic_singleStep (s : GState) :
    (UpdateLogic s).1.singleStep = s.singleStep :=
  (updateLogic_env s).2.2.2.2.2.2.2.2.1

theorem updateLogic_randSeed (s : GState) :
    (UpdateLogic s).1.randSeed = s.randSeed :=
  (updateLogic_env s).2.2.2.2.2.2.2.2.2.1

theorem updateLogic_snapshotsEnabled (s : GState) :
    (UpdateLogic s).1.snapshotsEnabled = s.snapshotsEnabled :=
  (updateLogic_env s).2.2.2.2.2.2.2.2.2.2.1

theorem noEarlyExit_updateLogic (s : GState) (h : NoEarlyExit s) :
    NoEarlyExit (UpdateLogic s).1 := by
  intro hg
  rw [updateLogic_gameSpeed] at hg
  obtain ⟨hi, hv⟩ := h hg
  rw [updateLogic_inputState, updateLogic_viewportScrolling]
  exact ⟨hi, hv⟩

theorem tickLoop_count (n : Nat) : ∀ s : GState, NoEarlyExit s →
    countIf isLogicCall (tickLoop n s).2 = n := by
  induction n with
  | zero => intro s _; rfl
  | succ n ih =>
    intro s h
    simp only [tickLoop]
    split
    · rename_i hg1
      have hg : s.gameSpeed = 1 := by rw [← updateLogic_gameSpeed s]; exact hg1
      obtain ⟨hidle, hvs⟩ := h hg
      split
      · split
        · rename_i hvs1
          rw [updateLogic_viewportScrolling, hvs] at hvs1
          cases hvs1
        · rw [countIf_append, countIf_logic_updateLogic,
              ih _ (noEarlyExit_updateLogic s h)]
          omega
      · rename_i hni
        rw [updateLogic_inputState] at hni
        exact absurd hidle hni
    · rw [countIf_append, countIf_logic_updateLogic,
          ih _ (noEarlyExit_updateLogic s h)]
      omega

theorem tickLoop_one_count (s : GState) :
    countIf isLogicCall (tickLoop 1 s).2 = 1 := by
  simp only [tickLoop]
  split
  · split
    · split
      · exact countIf_logic_updateLogic s
      · rw [countIf_append, countIf_logic_updateLogic]
        rfl
    · exact countIf_logic_updateLogic s
  · rw [countIf_append, countIf_logic_updateLogic]
    rfl

theorem tickLoop_full_speed (n : Nat) : ∀ s : GState, ¬ s.gameSpeed = 1 →
    countIf isLogicCall (tickLoop n s).2 = n := by
  induction n with
  | zero => intro s _; rfl
  | succ n ih =>
    intro s h
    simp only [tickLoop]
    split
    · rename_i hg1
      rw [updateLogic_gameSpeed] at hg1
      exact absurd hg1 h
    · rw [countIf_append, countIf_logic_updateLogic,
          ih _ (by rw [updateLogic_gameSpeed]; exact h)]
      omega

theorem tickLoop_paused (n : Nat) : ∀ s : GState,
    (tickLoop n s).1.paused = s.paused := by
  induction n with
  | zero => intro s; rfl
  | succ n ih =>
    intro s
    simp only [tickLoop]
    split
    · split
      · split
        · exact updateLogic_paused s
        · rw [ih, updateLogic_paused]
      · exact updateLogic_paused s
    · rw [ih, updateLogic_paused]

theorem tickLoop_client_ticks (n : Nat) : ∀ s : GState,
    s.networkMode = NetworkMode.client →
    s.currentTicks < U32MOD →
    (∀ i, i < n → (s.currentTicks + i) % U32MOD ≠ s.serverTick) →
    NoEarlyExit s →
    (tickLoop n s).1.currentTicks = (s.currentTicks + n) % U32MOD := by
  induction n with
  | zero =>
    intro s _ hc _ _
    show s.currentTicks = (s.currentTicks + 0) % U32MOD
    rw [Nat.add_zero, Nat.mod_eq_of_lt hc]
  | succ n ih =>
    intro s hm hc hne h
    have hstep : (UpdateLogic s).1.currentTicks = (s.currentTicks + 1) % U32MOD := by
      apply updateLogic_ticks
      rintro ⟨_, heq⟩
      have h0 := hne 0 (Nat.succ_pos n)
      rw [Nat.add_zero, Nat.mod_eq_of_lt hc] at h0
      exact h0 heq.symm
    have hmodpos : 0 < U32MOD := by norm_num [U32MOD]
    have hm1 : (UpdateLogic s).1.networkMode = NetworkMode.client := by
      rw [updateLogic_networkMode, hm]
    have hc1 : (UpdateLogic s).1.currentTicks < U32MOD := by
      rw [hstep]; exact Nat.mod_lt _ hmodpos
    have hne1 : ∀ i, i < n →
        ((UpdateLogic s).1.currentTicks + i) % U32MOD ≠ (UpdateLogic s).1.serverTick := by
      intro i hi
      rw [hstep, updateLogic_serverTick, Nat.mod_add_mod]
      have heqn : s.currentTicks + 1 + i = s.currentTicks + (i + 1) := by omega
      rw [heqn]
      exact hne (i + 1) (by omega)
    have h1 := noEarlyExit_updateLogic s h
    have hrec : (tickLoop n (UpdateLogic s).1).1.currentTicks
        = (s.currentTicks + (n + 1)) % U32MOD := by
      rw [ih _ hm1 hc1 hne1 h1, hstep, Nat.mod_add_mod]
      congr 1
      omega
    simp only [tickLoop]
    split
    · rename_i hg1
      have hg : s.gameSpeed = 1 := by rw [← updateLogic_gameSpeed s]; exact hg1
      obtain ⟨hidle, hvs⟩ := h hg
      split
      · split
        · rename_i hvs1
          rw [updateLogic_viewportScrolling, hvs] at hvs1
          cases hvs1
        · exact hrec
      · rename_i hni
        rw [updateLogic_inputState] at hni
        exact absurd hidle hni
    · exact hrec

theorem countIf_logic_pauseTrace (s : GState) :
    countIf isLogicCall (pauseTrace s) = 0 := by
  unfold pauseTrace
  split
  · split
    · rfl
    · split <;> rfl
  · rfl

theorem countIf_logic_autosaveTrace (s : GState) :
    countIf isLogicCall (autosaveTrace s) = 0 := by
  unfold autosaveTrace
  split <;> rfl

theorem tick_count (s : GState) :
    countIf isLogicCall (Tick s).2
      = countIf isLogicCall (tickLoop (loopCount s) (preLoopState s)).2 := by
  show countIf isLogicCall
      ([Ev.netUpdate] ++ pauseTrace s ++ (tickLoop (loopCount s) (preLoopState s)).2
        ++ [Ev.netFlush] ++ autosaveTrace s) = _
  simp only [countIf_append, countIf_logic_pauseTrace, countIf_logic_autosaveTrace]
  have h1 : countIf isLogicCall [Ev.netUpdate] = 0 := rfl
  have h2 : countIf isLogicCall [Ev.netFlush] = 0 := rfl
  omega

theorem tickFinal_fields (s : GState) :
    (Tick s).1.currentTicks = (tickLoop (loopCount s) (preLoopState s)).1.currentTicks ∧
    (Tick s).1.date = (tickLoop (loopCount s) (preLoopState s)).1.date ∧
    (Tick s).1.dateMonthsElapsed
      = (tickLoop (loopCount s) (preLoopState s)).1.dateMonthsElapsed ∧
    (Tick s).1.dateMonthTicks
      = (tickLoop (loopCount s) (preLoopState s)).1.dateMonthTicks ∧
    (Tick s).1.snapshots = (tickLoop (loopCount s) (preLoopState s)).1.snapshots ∧
    (Tick s).1.savedAge = (tickLoop (loopCount s) (preLoopState s)).1.savedAge ∧
    (Tick s).1.screenAge = (tickLoop (loopCount s) (preLoopState s)).1.screenAge := by
  show (tickFinal s).currentTicks = _ ∧ (tickFinal s).date = _
      ∧ (tickFinal s).dateMonthsElapsed = _ ∧ (tickFinal s).dateMonthTicks = _
      ∧ (tickFinal s).snapshots = _ ∧ (tickFinal s).savedAge = _
      ∧ (tickFinal s).screenAge = _
  unfold tickFinal
  dsimp only
  split <;> split <;> exact ⟨rfl, rfl, rfl, rfl, rfl, rfl, rfl⟩

theorem not_paused_simps (s : GState) (h : effectivePaused s = false) :
    preLoopState s = s ∧ loopCount s = numUpdatesOf s ∧ didRunSingle s = false
      ∧ pauseTrace s = [] := by
  unfold preLoopState loopCount didRunSingle pauseTrace
  simp [h]

theorem effPaused_of_paused_false (s : GState)
    (hns : ¬ s.networkMode = NetworkMode.server) (hp : s.paused = false) :
    effectivePaused s = false := by
  unfold effectivePaused
  rw [if_neg]
  · exact hp
  · rintro ⟨hm, _⟩
    exact hns hm

theorem u32sub_add (c d : Nat) (h : c + d < U32MOD) : u32sub (c + d) c = d := by
  unfold u32sub
  have hc : c < U32MOD := by omega
  rw [Nat.mod_eq_of_lt h, Nat.mod_eq_of_lt hc]
  have h2 : c + d + (U32MOD - c) = d + U32MOD := by omega
  rw [h2, Nat.add_mod_right]
  exact Nat.mod_eq_of_lt (by omega)

theorem u32sub_wrap (sv c : Nat) (hlt : sv < c) (hc : c < U32MOD) :
    u32sub sv c = U32MOD - (c - sv) := by
  unfold u32sub
  rw [Nat.mod_eq_of_lt (by omega : sv < U32MOD), Nat.mod_eq_of_lt hc]
  have h1 : sv + (U32MOD - c) = U32MOD - (c - sv) := by omega
  rw [h1]
  exact Nat.mod_eq_of_lt (by omega)

theorem numUpdates_client (s : GState)
    (hm : s.networkMode = NetworkMode.client)
    (hs : s.networkStatus = NetworkStatus.connected)
    (ha : s.networkAuth = NetworkAuth.ok) :
    numUpdatesOf s = min (u32sub s.serverTick s.currentTicks) 10 := by
  unfold numUpdatesOf
  rw [if_pos ⟨hm, hs, ha⟩, Nat.max_zero]

theorem numUpdates_speed (s : GState)
    (h : ¬(s.networkMode = NetworkMode.client
           ∧ s.networkStatus = NetworkStatus.connected
           ∧ s.networkAuth = NetworkAuth.ok))
    (hs : 1 ≤ s.gameSpeed) :
    numUpdatesOf s = 2 ^ (s.gameSpeed - 1) := by
  unfold numUpdatesOf
  rw [if_neg h]
  rcases Nat.lt_or_ge 1 s.gameSpeed with h1 | h1
  · rw [if_pos h1]
  · have hg : s.gameSpeed = 1 := Nat.le_antisymm h1 hs
    rw [if_neg (by omega), hg]
    rfl

theorem tickFinal_paused_single (s : GState)
    (hdrs : didRunSingle s = true)
    (hlp : (tickLoop (loopCount s) (preLoopState s)).1.paused = false)
    (ht : s.screenFlagsTitleDemo = false) :
    (tickFinal s).paused = true := by
  unfold tickFinal
  dsimp only
  split
  · rw [if_pos ⟨hdrs, hlp, ht⟩]
    show (!(tickLoop (loopCount s) (preLoopState s)).1.paused) = true
    rw [hlp]
    rfl
  · rw [if_pos ⟨hdrs, hlp, ht⟩]
    show (!(tickLoop (loopCount s) (preLoopState s)).1.paused) = true
    rw [hlp]
    rfl

theorem tick_singleStep (s : GState) : (Tick s).1.singleStep = false := rfl

theorem post_hooks (t : GState) :
    ∀ e ∈ Ev.hookTick
        :: (if t.date.GetDay = (dateAfter t).GetDay then [] else [Ev.hookDay]),
      e = Ev.hookTick ∨ e = Ev.hookDay := by
  intro e he
  rw [List.mem_cons] at he
  rcases he with he | he
  · exact Or.inl he
  · split at he
    · cases he
    · rw [List.mem_singleton] at he
      exact Or.inr he

theorem trace_decomp (P : List Ev) (t : GState) :
    P ++ mainTrace t
      = (P ++ mainTracePre t) ++ Ev.tickInc
          :: (Ev.hookTick
              :: (if t.date.GetDay = (dateAfter t).GetDay then [] else [Ev.hookDay])) := by
  unfold mainTrace
  simp [List.append_assoc]

theorem updateLogic_server_snaps (s : GState)
    (hm : s.networkMode = NetworkMode.server) (hen : s.snapshotsEnabled = true) :
    (UpdateLogic s).1.snapshots = s.snapshots ++ [(s.currentTicks, s.randSeed)] := by
  unfold UpdateLogic
  rw [if_pos hm, if_pos hen]
  rfl

theorem iter_server_snaps (n : Nat) : ∀ s : GState,
    s.networkMode = NetworkMode.server → s.snapshotsEnabled = true →
    s.currentTicks + n < U32MOD →
    (iterLogic n s).snapshots
      = s.snapshots ++ (List.range n).map (fun i => (s.currentTicks + i, s.randSeed)) ∧
    (iterLogic n s).currentTicks = s.currentTicks + n := by
  induction n with
  | zero =>
    intro s _ _ _
    constructor
    · simp [iterLogic]
    · simp [iterLogic]
  | succ n ih =>
    intro s hm hen hlt
    have hstept : (UpdateLogic s).1.currentTicks = s.currentTicks + 1 := by
      rw [updateLogic_ticks s (by rw [hm]; rintro ⟨hc, _⟩; cases hc)]
      exact Nat.mod_eq_of_lt (by omega)
    have hsteps := updateLogic_server_snaps s hm hen
    have hm1 : (UpdateLogic s).1.networkMode = NetworkMode.server := by
      rw [updateLogic_networkMode, hm]
    have hen1 : (UpdateLogic s).1.snapshotsEnabled = true := by
      rw [updateLogic_snapshotsEnabled, hen]
    have hseed := updateLogic_randSeed s
    have hlt1 : (UpdateLogic s).1.currentTicks + n < U32MOD := by
      rw [hstept]; omega
    obtain ⟨ihs, iht⟩ := ih (UpdateLogic s).1 hm1 hen1 hlt1
    constructor
    · show (iterLogic n (UpdateLogic s).1).snapshots = _
      rw [ihs, hsteps, hstept, hseed, List.append_assoc]
      congr 1
      rw [List.range_succ_eq_map]
      simp only [List.map_cons, List.map_map, List.singleton_append]
      congr 1
      apply List.map_congr_left
      intro i _
      simp only [Function.comp_apply]
      congr 1
      omega
    · show (iterLogic n (UpdateLogic s).1).currentTicks = _
      rw [iht, hstept]
      omega

theorem chain_range_map (n c r : Nat) :
    List.Chain' (fun a b => a.1 ≤ b.1)
      ((List.range n).map (fun i => (c + i, r))) := by
  apply List.Pairwise.chain'
  rw [List.pairwise_map]
  exact (List.pairwise_lt_range n).imp (fun hij => by omega)

/-! Claim theorems. -/

/-- C1, counterexample: on a connected authenticated client with
serverTick = localTick + 5, game not paused, the frame driver executes
1 tick, not min(5, 10) = 5, because the interactive input state breaks
the catch-up batch after the first update (GameState.cpp lines 190 to
203). -/
theorem c1_counterexample :
    c1cex.serverTick = c1cex.currentTicks + 5 ∧ c1cex.paused = false ∧
    countIf isLogicCall (Tick c1cex).2 = 1 ∧
    (Tick c1cex).1.currentTicks = 51 ∧
    ¬(countIf isLogicCall (Tick c1cex).2 = min 5 10 ∧
      (Tick c1cex).1.currentTicks = c1cex.currentTicks + min 5 10) := by
  decide

/-- C1, amended: on a connected authenticated client with
serverTick = localTick + d (no 32-bit wrap), game not paused, the frame
driver executes exactly min(d, 10) pipeline calls and the local tick
counter becomes localTick + min(d, 10), provided the loop early exit does
not trigger: at speed 1 the input state stays idle with the
viewport-scrolling flag clear. -/
theorem c1_catchup_amended (s : GState) (d : Nat)
    (hm : s.networkMode = NetworkMode.client)
    (hst : s.networkStatus = NetworkStatus.connected)
    (ha : s.networkAuth = NetworkAuth.ok)
    (hp : s.paused = false)
    (hd : s.serverTick = s.currentTicks + d)
    (hlt : s.currentTicks + d < U32MOD)
    (hin : NoEarlyExit s) :
    countIf isLogicCall (Tick s).2 = min d 10 ∧
    (Tick s).1.currentTicks = s.currentTicks + min d 10 := by
  have hns : ¬ s.networkMode = NetworkMode.server := by
    rw [hm]; intro hc; cases hc
  have hep := effPaused_of_paused_false s hns hp
  obtain ⟨hpre, hlc, _, _⟩ := not_paused_simps s hep
  have hnu : numUpdatesOf s = min d 10 := by
    rw [numUpdates_client s hm hst ha, hd, u32sub_add _ _ hlt]
  have hmin : min d 10 ≤ d := Nat.min_le_left d 10
  have hc32 : s.currentTicks < U32MOD := by omega
  have hne : ∀ i, i < min d 10 → (s.currentTicks + i) % U32MOD ≠ s.serverTick := by
    intro i hi
    rw [Nat.mod_eq_of_lt (by omega : s.currentTicks + i < U32MOD), hd]
    omega
  constructor
  · rw [tick_count, hpre, hlc, hnu]
    exact tickLoop_count _ s hin
  · rw [(tickFinal_fields s).1, hpre, hlc, hnu,
        tickLoop_client_ticks _ s hm hc32 hne hin]
    exact Nat.mod_eq_of_lt (by omega)

/-- C1, witness of the amended claim at a concrete client state with
d = 7 and idle input. -/
theorem c1_catchup_amended_witness :
    countIf isLogicCall (Tick c1wit).2 = min 7 10 ∧
    (Tick c1wit).1.currentTicks = c1wit.currentTicks + min 7 10 :=
  c1_catchup_amended c1wit 7 rfl rfl rfl rfl rfl (by decide)
    (fun _ => ⟨Or.inr rfl, rfl⟩)

/-- C2, counterexample: the early exit does occur on a connected network
client catching up to the server, because the loop guard at GameState.cpp
line 190 tests only the game speed: with a catch-up batch of 7 at speed 1
and interactive input, only 1 update runs. -/
theorem c2_counterexample :
    c2cex.networkMode = NetworkMode.client ∧
    c2cex.networkStatus = NetworkStatus.connected ∧
    c2cex.networkAuth = NetworkAuth.ok ∧
    numUpdatesOf c2cex = 7 ∧ c2cex.gameSpeed = 1 ∧
    countIf isLogicCall (Tick c2cex).2 = 1 := by
  decide

/-- C2, amended: the mid-batch early exit occurs only at game speed 1:
above speed 1 every scheduled update of a frame call runs, and a frame
call that runs fewer updates than scheduled implies the speed is 1.  It
is not disabled for a connected client catching up (see the
counterexample). -/
theorem c2_early_exit_amended (s : GState) :
    (1 < s.gameSpeed → countIf isLogicCall (Tick s).2 = loopCount s) ∧
    (countIf isLogicCall (Tick s).2 < loopCount s → s.gameSpeed = 1) := by
  have hpre : (preLoopState s).gameSpeed = s.gameSpeed := by
    unfold preLoopState
    split
    · split <;> rfl
    · rfl
  constructor
  · intro h
    rw [tick_count]
    exact tickLoop_full_speed _ _ (by rw [hpre]; omega)
  · intro h
    by_contra hne
    have hfull : countIf isLogicCall (Tick s).2 = loopCount s := by
      rw [tick_count]
      exact tickLoop_full_speed _ _ (by rw [hpre]; exact hne)
    omega

/-- C2, witness of the amended claim at speed 3: the whole scheduled
batch runs. -/
theorem c2_early_exit_amended_witness :
    countIf isLogicCall (Tick c2wit).2 = loopCount c2wit :=
  (c2_early_exit_amended c2wit).1 (by decide)

/-- C3: with no connected-client catch-up, game not paused and speed
level s at least 1, a frame call executes exactly 2^(s-1) pipeline calls
(GameState.cpp lines 136 to 141 and 187 to 205). -/
theorem c3_speed_updates (s : GState)
    (hnc : ¬(s.networkMode = NetworkMode.client
             ∧ s.networkStatus = NetworkStatus.connected
             ∧ s.networkAuth = NetworkAuth.ok))
    (hp : effectivePaused s = false)
    (hs : 1 ≤ s.gameSpeed) :
    countIf isLogicCall (Tick s).2 = 2 ^ (s.gameSpeed - 1) := by
  obtain ⟨hpre, hlc, _, _⟩ := not_paused_simps s hp
  rw [tick_count, hpre, hlc, numUpdates_speed s hnc hs]
  rcases Nat.lt_or_ge 1 s.gameSpeed with h1 | h1
  · exact tickLoop_full_speed _ s (by omega)
  · have hg : s.gameSpeed = 1 := Nat.le_antisymm h1 hs
    rw [hg]
    exact tickLoop_one_count s

/-- C3, witness at speed level 4: a frame call executes 8 updates. -/
theorem c3_speed_updates_witness :
    countIf isLogicCall (Tick c3wit).2 = 2 ^ (c3wit.gameSpeed - 1) :=
  c3_speed_updates c3wit (by decide) (by decide) (by decide)

/-- C10, counterexample: with localTick = 2^32 - 1 and serverTick = 0 the
wrapped 32-bit difference is 1, so the clamp yields 1 update, not 10. -/
theorem c10_counterexample :
    c10cex.serverTick < c10cex.currentTicks ∧
    numUpdatesOf c10cex = 1 ∧
    countIf isLogicCall (Tick c10cex).2 = 1 := by
  decide

/-- C10, amended: on a connected authenticated client with
serverTick < localTick, the unsigned 32-bit subtraction wraps to
2^32 - (localTick - serverTick), so the update count is at least 1 (the
driver never stalls), and it is exactly 10 whenever
localTick - serverTick is at most 2^32 - 10; with idle input the frame
call then attempts 10 catch-up pipeline calls. -/
theorem c10_wrap_amended (s : GState)
    (hm : s.networkMode = NetworkMode.client)
    (hst : s.networkStatus = NetworkStatus.connected)
    (ha : s.networkAuth = NetworkAuth.ok)
    (hp : s.paused = false)
    (hlt : s.serverTick < s.currentTicks)
    (hc : s.currentTicks < U32MOD)
    (hgap : s.currentTicks - s.serverTick ≤ U32MOD - 10)
    (hin : NoEarlyExit s) :
    1 ≤ numUpdatesOf s ∧ numUpdatesOf s = 10 ∧
    countIf isLogicCall (Tick s).2 = 10 := by
  have hnu : numUpdatesOf s = 10 := by
    rw [numUpdates_client s hm hst ha, u32sub_wrap _ _ hlt hc]
    have hge : 10 ≤ U32MOD - (s.currentTicks - s.serverTick) := by
      unfold U32MOD at *
      omega
    omega
  have hns : ¬ s.networkMode = NetworkMode.server := by
    rw [hm]; intro hcon; cases hcon
  have hep := effPaused_of_paused_false s hns hp
  obtain ⟨hpre, hlc, _, _⟩ := not_paused_simps s hep
  refine ⟨by omega, hnu, ?_⟩
  rw [tick_count, hpre, hlc, hnu]
  exact tickLoop_count _ s hin

/-- C10, witness of the amended claim at a concrete client state 60 ticks
ahead of the server. -/
theorem c10_wrap_amended_witness :
    1 ≤ numUpdatesOf c10wit ∧ numUpdatesOf c10wit = 10 ∧
    countIf isLogicCall (Tick c10wit).2 = 10 :=
  c10_wrap_amended c10wit rfl rfl rfl rfl (by decide) (by decide) (by decide)
    (fun _ => ⟨Or.inr rfl, rfl⟩)

/-- C4, counterexample: from paused with a single-step request pending
and network mode None but with the title-demo screen flag set, one tick
executes yet the pause state is NOT restored, because the restoring
PauseToggle at GameState.cpp line 245 is guarded by the title-demo flag:
the game ends the frame unpaused. -/
theorem c4_counterexample :
    c4cex.paused = true ∧ c4cex.singleStep = true ∧
    c4cex.networkMode = NetworkMode.noneM ∧
    countIf isLogicCall (Tick c4cex).2 = 1 ∧
    (Tick c4cex).1.paused = false := by
  decide

/-- C4, amended: from paused with a single-step request pending and
network mode None, exactly one pipeline call executes and the single-step
flag is cleared; provided the title-demo screen flag is clear, the pause
state is restored to paused at the end of the call. -/
theorem c4_single_step_amended (s : GState)
    (hp : s.paused = true) (hss : s.singleStep = true)
    (hm : s.networkMode = NetworkMode.noneM)
    (ht : s.screenFlagsTitleDemo = false) :
    countIf isLogicCall (Tick s).2 = 1 ∧
    (Tick s).1.paused = true ∧
    (Tick s).1.singleStep = false := by
  have heff : effectivePaused s = true := by
    unfold effectivePaused
    rw [if_neg]
    · exact hp
    · rintro ⟨hsm, _⟩
      rw [hm] at hsm
      cases hsm
  have hcond : s.singleStep = true ∧ s.networkMode = NetworkMode.noneM := ⟨hss, hm⟩
  have hlc : loopCount s = 1 := by
    unfold loopCount
    rw [if_pos heff, if_pos hcond]
  have hdrs : didRunSingle s = true := by
    unfold didRunSingle
    rw [if_pos heff, if_pos hcond]
  have hpre : preLoopState s = { s with paused := !s.paused } := by
    unfold preLoopState
    rw [if_pos heff, if_pos hcond]
  refine ⟨?_, ?_, tick_singleStep s⟩
  · rw [tick_count, hlc]
    exact tickLoop_one_count _
  · show (tickFinal s).paused = true
    apply tickFinal_paused_single s hdrs ?_ ht
    rw [tickLoop_paused, hpre]
    show (!s.paused) = false
    rw [hp]
    rfl

/-- C4, witness of the amended claim at a concrete paused single-step
state outside the title demo. -/
theorem c4_single_step_amended_witness :
    countIf isLogicCall (Tick c4wit).2 = 1 ∧
    (Tick c4wit).1.paused = true ∧
    (Tick c4wit).1.singleStep = false :=
  c4_single_step_amended c4wit rfl rfl rfl rfl

/-- C5: while effectively paused without a single-step request (for
network mode None), a frame driver call executes zero pipeline calls and
leaves the tick counter, date, snapshot history, saved age and screen age
unchanged, yet still invalidates the map animation list, processes
pending inbound network messages and drains the action queue
(GameState.cpp lines 162 to 183). -/
theorem c5_pause_idempotence (s : GState)
    (hp : effectivePaused s = true)
    (hns : ¬(s.singleStep = true ∧ s.networkMode = NetworkMode.noneM)) :
    countIf isLogicCall (Tick s).2 = 0 ∧
    (Tick s).1.currentTicks = s.currentTicks ∧
    (Tick s).1.date = s.date ∧
    (Tick s).1.dateMonthsElapsed = s.dateMonthsElapsed ∧
    (Tick s).1.dateMonthTicks = s.dateMonthTicks ∧
    (Tick s).1.snapshots = s.snapshots ∧
    (Tick s).1.savedAge = s.savedAge ∧
    (Tick s).1.screenAge = s.screenAge ∧
    Ev.mapAnimInvalidate ∈ (Tick s).2 ∧
    Ev.procPending ∈ (Tick s).2 ∧
    Ev.procQueue ∈ (Tick s).2 := by
  have hlc : loopCount s = 0 := by
    unfold loopCount
    rw [if_pos hp, if_neg hns]
  have hpre : preLoopState s = s := by
    unfold preLoopState
    rw [if_pos hp, if_neg hns]
  have hpt : pauseTrace s
      = (if s.networkMode = NetworkMode.server then [Ev.sendTick] else [])
        ++ [Ev.mapAnimInvalidate, Ev.procPending, Ev.procQueue] := by
    unfold pauseTrace
    rw [if_pos hp, if_neg hns]
  obtain ⟨hf1, hf2, hf3, hf4, hf5, hf6, hf7⟩ := tickFinal_fields s
  refine ⟨?_, ?_, ?_, ?_, ?_, ?_, ?_, ?_, ?_, ?_, ?_⟩
  · rw [tick_count, hlc]
    rfl
  · rw [hf1, hlc, hpre]
    rfl
  · rw [hf2, hlc, hpre]
    rfl
  · rw [hf3, hlc, hpre]
    rfl
  · rw [hf4, hlc, hpre]
    rfl
  · rw [hf5, hlc, hpre]
    rfl
  · rw [hf6, hlc, hpre]
    rfl
  · rw [hf7, hlc, hpre]
    rfl
  · show Ev.mapAnimInvalidate ∈ [Ev.netUpdate] ++ pauseTrace s
        ++ (tickLoop (loopCount s) (preLoopState s)).2 ++ [Ev.netFlush]
        ++ autosaveTrace s
    rw [hpt]
    simp
  · show Ev.procPending ∈ [Ev.netUpdate] ++ pauseTrace s
        ++ (tickLoop (loopCount s) (preLoopState s)).2 ++ [Ev.netFlush]
        ++ autosaveTrace s
    rw [hpt]
    simp
  · show Ev.procQueue ∈ [Ev.netUpdate] ++ pauseTrace s
        ++ (tickLoop (loopCount s) (preLoopState s)).2 ++ [Ev.netFlush]
        ++ autosaveTrace s
    rw [hpt]
    simp

/-- C5, witness at a concrete paused non-networked state. -/
theorem c5_pause_idempotence_witness :
    countIf isLogicCall (Tick c5wit).2 = 0 ∧
    (Tick c5wit).1.currentTicks = c5wit.currentTicks ∧
    (Tick c5wit).1.date = c5wit.date ∧
    (Tick c5wit).1.dateMonthsElapsed = c5wit.dateMonthsElapsed ∧
    (Tick c5wit).1.dateMonthTicks = c5wit.dateMonthTicks ∧
    (Tick c5wit).1.snapshots = c5wit.snapshots ∧
    (Tick c5wit).1.savedAge = c5wit.savedAge ∧
    (Tick c5wit).1.screenAge = c5wit.screenAge ∧
    Ev.mapAnimInvalidate ∈ (Tick c5wit).2 ∧
    Ev.procPending ∈ (Tick c5wit).2 ∧
    Ev.procQueue ∈ (Tick c5wit).2 :=
  c5_pause_idempotence c5wit (by decide) (by decide)

/-- C6, counterexample: on a client whose local tick 7 exceeds the
announced server tick 5, UpdateLogic does NOT return early: the guard at
GameState.cpp line 289 tests equality only, so a full update runs and the
tick counter advances to 8. -/
theorem c6_counterexample :
    c6cex.networkMode = NetworkMode.client ∧
    c6cex.serverTick ≤ c6cex.currentTicks ∧
    (UpdateLogic c6cex).1.currentTicks = 8 := by
  decide

/-- C6, amended: on a client the early return happens exactly when the
announced server tick equals the local tick: then the tick counter, date
counters, snapshot history and saved age are unchanged and only the entry
events are emitted (no error is signalled); when the two differ,
including serverTick < localTick, the full update runs and the tick
counter advances. -/
theorem c6_client_guard_amended (s : GState)
    (hm : s.networkMode = NetworkMode.client) :
    (s.serverTick = s.currentTicks →
      (UpdateLogic s).1.currentTicks = s.currentTicks ∧
      (UpdateLogic s).1.date = s.date ∧
      (UpdateLogic s).1.dateMonthsElapsed = s.dateMonthsElapsed ∧
      (UpdateLogic s).1.dateMonthTicks = s.dateMonthTicks ∧
      (UpdateLogic s).1.snapshots = s.snapshots ∧
      (UpdateLogic s).1.savedAge = s.savedAge ∧
      (UpdateLogic s).2 = logicPre) ∧
    (¬ s.serverTick = s.currentTicks →
      (UpdateLogic s).1.currentTicks = (s.currentTicks + 1) % U32MOD) := by
  constructor
  · intro heq
    obtain ⟨h1, h2⟩ := updateLogic_early s hm heq
    rw [h1, h2]
    exact ⟨rfl, rfl, rfl, rfl, rfl, rfl, rfl⟩
  · intro hne
    exact updateLogic_ticks s (by rintro ⟨_, h⟩; exact hne h)

/-- C6, witness of the amended claim: with server and local tick both 50
the call leaves the tick counter unchanged. -/
theorem c6_client_guard_amended_witness :
    (UpdateLogic c6wit).1.currentTicks = c6wit.currentTicks ∧
    (UpdateLogic c6wit).2 = logicPre :=
  ⟨((c6_client_guard_amended c6wit rfl).1 rfl).1,
   ((c6_client_guard_amended c6wit rfl).1 rfl).2.2.2.2.2.2⟩

/-- C7: on every completed pipeline call the tick-elapsed hook fires
exactly once, and the day-elapsed hook fires exactly when the day value
of the Logical Date after the Date-update step differs from the day value
at the start of the tick (GameState.cpp lines 310 to 393). -/
theorem c7_day_hook (s : GState)
    (h : ¬(s.networkMode = NetworkMode.client ∧ s.serverTick = s.currentTicks)) :
    countIf isHookTick (UpdateLogic s).2 = 1 ∧
    countIf isHookDay (UpdateLogic s).2
      = (if s.date.GetDay = (UpdateLogic s).1.date.GetDay then 0 else 1) := by
  unfold UpdateLogic
  split
  · split <;>
      refine ⟨?_, ?_⟩ <;>
      simp only [countIf_append, countIf_hookTick_mainTrace,
        countIf_hookDay_mainTrace] <;>
      simp [countIf, isHookDay, isHookTick, logicPre, snapTrace, mainState,
        snapAppend, bumpAge, dateAfter]
  · split
    · split
      · rename_i hm heq
        exact absurd ⟨hm, heq⟩ h
      · split <;>
          refine ⟨?_, ?_⟩ <;>
          simp only [countIf_append, countIf_hookTick_mainTrace,
            countIf_hookDay_mainTrace] <;>
          simp [countIf, isHookDay, isHookTick, logicPre, snapTrace, mainState,
            snapAppend, bumpAge, dateAfter]
    · refine ⟨?_, ?_⟩ <;>
        simp only [countIf_append, countIf_hookTick_mainTrace,
          countIf_hookDay_mainTrace] <;>
        simp [countIf, isHookDay, isHookTick, logicPre, snapTrace, mainState,
          snapAppend, bumpAge, dateAfter]

/-- C7, witness at a non-networked state one update before a day
boundary: the day hook fires on that tick. -/
theorem c7_day_hook_witness :
    countIf isHookTick (UpdateLogic c7wit).2 = 1 ∧
    countIf isHookDay (UpdateLogic c7wit).2
      = (if c7wit.date.GetDay = (UpdateLogic c7wit).1.date.GetDay then 0 else 1) :=
  c7_day_hook c7wit (by decide)

/-- C8: on a server with snapshotting enabled, each pipeline call creates,
captures and links exactly one snapshot to the pair (current tick,
current random seed), before the tick announcement to the clients
(network_send_tick); and over a run of n such calls starting from an
empty snapshot history, the linked tick values are exactly consecutive
and hence monotonically non-decreasing (GameState.cpp lines 276 to 285
and 401 to 410). -/
theorem c8_snapshot (n : Nat) (s : GState)
    (hm : s.networkMode = NetworkMode.server)
    (hen : s.snapshotsEnabled = true)
    (hfit : s.currentTicks + n < U32MOD)
    (hh : s.snapshots = []) :
    ((UpdateLogic s).2
        = [Ev.logicCall, Ev.replayUpdate, Ev.netUpdate, Ev.snapCreate,
           Ev.snapCapture, Ev.snapLink s.currentTicks s.randSeed, Ev.sendTick]
          ++ mainTrace (snapAppend (bumpAge s))
      ∧ countIf isSnapEvent (mainTrace (snapAppend (bumpAge s))) = 0) ∧
    (iterLogic n s).snapshots
      = (List.range n).map (fun i => (s.currentTicks + i, s.randSeed)) ∧
    List.Chain' (fun a b => a.1 ≤ b.1) ((iterLogic n s).snapshots) := by
  have hiter := (iter_server_snaps n s hm hen hfit).1
  rw [hh] at hiter
  rw [List.nil_append] at hiter
  refine ⟨⟨?_, countIf_snap_mainTrace _⟩, hiter, ?_⟩
  · unfold UpdateLogic
    rw [if_pos hm, if_pos hen, if_pos hen]
    rfl
  · rw [hiter]
    exact chain_range_map n s.currentTicks s.randSeed

/-- C8, witness: a server at tick 100 over a run of 3 calls. -/
theorem c8_snapshot_witness :
    (iterLogic 3 c8wit).snapshots
      = (List.range 3).map (fun i => (c8wit.currentTicks + i, c8wit.randSeed)) ∧
    List.Chain' (fun a b => a.1 ≤ b.1) ((iterLogic 3 c8wit).snapshots) :=
  ⟨(c8_snapshot 3 c8wit rfl rfl (by decide) rfl).2.1,
   (c8_snapshot 3 c8wit rfl rfl (by decide) rfl).2.2⟩

/-- C9: the tick counter is monotonic: every completed pipeline call
increments it by exactly one, with the increment as the final step after
every subsystem update and the action queue drain (only the hook
notifications follow it); a client early return leaves it unchanged and
emits no increment; InitAll resets it to 0 (GameState.cpp lines 59 to 96
and 374 to 393). -/
theorem c9_tick_monotonic (s : GState) (h32 : s.currentTicks + 1 < U32MOD) :
    (¬(s.networkMode = NetworkMode.client ∧ s.serverTick = s.currentTicks) →
      (UpdateLogic s).1.currentTicks = s.currentTicks + 1 ∧
      countIf isTickInc (UpdateLogic s).2 = 1 ∧
      ∃ pre post, (UpdateLogic s).2 = pre ++ Ev.tickInc :: post ∧
        Ev.procQueue ∈ pre ∧ Ev.dateUpd ∈ pre ∧ Ev.peepUpd ∈ pre ∧
        Ev.vehicleUpd ∈ pre ∧ Ev.rideUpd ∈ pre ∧
        (∀ e ∈ post, e = Ev.hookTick ∨ e = Ev.hookDay)) ∧
    ((s.networkMode = NetworkMode.client ∧ s.serverTick = s.currentTicks) →
      (UpdateLogic s).1.currentTicks = s.currentTicks ∧
      countIf isTickInc (UpdateLogic s).2 = 0) ∧
    (InitAll s (100, 100)).currentTicks = 0 := by
  refine ⟨?_, ?_, rfl⟩
  · intro h
    refine ⟨?_, ?_, ?_⟩
    · rw [updateLogic_ticks s h]
      exact Nat.mod_eq_of_lt h32
    · unfold UpdateLogic
      split
      · split <;>
          (simp only [countIf_append, countIf_inc_mainTrace]; rfl)
      · split
        · split
          · rename_i hm heq
            exact absurd ⟨hm, heq⟩ h
          · split <;>
              (simp only [countIf_append, countIf_inc_mainTrace]; rfl)
        · simp only [countIf_append, countIf_inc_mainTrace]
          rfl
    · unfold UpdateLogic
      split
      · split
        · exact ⟨logicPre ++ snapTrace (bumpAge s) ++ [Ev.sendTick]
              ++ mainTracePre (snapAppend (bumpAge s)), _,
            trace_decomp _ _, by simp [logicPre, snapTrace, mainTracePre],
            by simp [logicPre, snapTrace, mainTracePre],
            by simp [logicPre, snapTrace, mainTracePre],
            by simp [logicPre, snapTrace, mainTracePre],
            by simp [logicPre, snapTrace, mainTracePre], post_hooks _⟩
        · exact ⟨logicPre ++ [] ++ [Ev.sendTick] ++ mainTracePre (bumpAge s), _,
            trace_decomp _ _, by simp [logicPre, mainTracePre],
            by simp [logicPre, mainTracePre], by simp [logicPre, mainTracePre],
            by simp [logicPre, mainTracePre], by simp [logicPre, mainTracePre],
            post_hooks _⟩
      · split
        · split
          · rename_i hm heq
            exact absurd ⟨hm, heq⟩ h
          · split
            · exact ⟨logicPre ++ ([Ev.checkDesync] ++ (snapTrace (bumpAge s)
                    ++ [Ev.requestSnapshot]))
                  ++ mainTracePre (snapAppend (bumpAge s)), _,
                trace_decomp _ _, by simp [logicPre, snapTrace, mainTracePre],
                by simp [logicPre, snapTrace, mainTracePre],
                by simp [logicPre, snapTrace, mainTracePre],
                by simp [logicPre, snapTrace, mainTracePre],
                by simp [logicPre, snapTrace, mainTracePre], post_hooks _⟩
            · exact ⟨logicPre ++ ([Ev.checkDesync] ++ [])
                  ++ mainTracePre (bumpAge s), _,
                trace_decomp _ _, by simp [logicPre, mainTracePre],
                by simp [logicPre, mainTracePre], by simp [logicPre, mainTracePre],
                by simp [logicPre, mainTracePre], by simp [logicPre, mainTracePre],
                post_hooks _⟩
        · exact ⟨logicPre ++ mainTracePre (bumpAge s), _,
            trace_decomp _ _, by simp [logicPre, mainTracePre],
            by simp [logicPre, mainTracePre], by simp [logicPre, mainTracePre],
            by simp [logicPre, mainTracePre], by simp [logicPre, mainTracePre],
            post_hooks _⟩
  · intro hc
    obtain ⟨h1, h2⟩ := updateLogic_early s hc.1 hc.2
    rw [h1, h2]
    exact ⟨rfl, rfl⟩

/-- C9, witness at a non-networked state at tick 100: the completed call
advances the counter to 101. -/
theorem c9_tick_monotonic_witness :
    (UpdateLogic c9wit).1.currentTicks = c9wit.currentTicks + 1 ∧
    (InitAll c9wit (100, 100)).currentTicks = 0 :=
  ⟨((c9_tick_monotonic c9wit (by decide)).1 (by decide)).1,
   (c9_tick_monotonic c9wit (by decide)).2.2⟩

end RCT
